import Mathlib

/-!
Shallow embedding of the bidirectional hopscotch hashmap of the
`isomorphism` crate (src/src/lib.rs).

The crate declares three further modules (`bitfield`, `bucket`, `iterator`)
whose files are absent from src; those parts are modelled from the spec
(sections 4.1, 4.2, 4.8) and are marked as such in their doc comments.
Everything else is translated directly from lib.rs:

* `BiMap.with_capacity`, `BiMap.new`, `BiMap.capacity` (lib.rs lines 43-67);
* `BiMap.insert` (lib.rs lines 79-81): its body is the `unimplemented!()`
  macro, modelled as the panic outcome `RustPanic.unimplemented`;
* the shared removal routine `BiMap.remove` (lib.rs lines 86-132) together
  with its public wrappers `BiMap.remove_left` and `BiMap.remove_right`
  (lib.rs lines 136-146).

Rust panics are made explicit: machine behaviour that aborts (reduction
modulo zero when the table length is zero, `Option::unwrap` on `None`,
and `unimplemented!`) is returned as `Except.error`, while normal returns
are `Except.ok`. Hash builders (`BuildHasher` values stored in the Rust
struct, fixed per instance) are modelled as explicit function arguments
`K → Nat`; an ideal index is the hash reduced modulo the table length,
exactly as in lib.rs lines 96-100. The `usize` multiplications of the
sizing code (`capacity * 11` in `with_capacity`, `len / 10 * 11` in
`capacity`) are modelled with explicit reduction modulo 2^64, the
wrapping semantics of the default release profile; a debug build would
abort on an overflowing multiplication instead of wrapping.
-/

namespace Isomorphism

/-- Observable panic outcomes of the Rust code: reduction modulo zero
(`x % len` with `len = 0`), `Option::unwrap` applied to `None`, and the
`unimplemented!` macro. -/
inductive RustPanic where
  | divByZero
  | unwrapNone
  | unimplemented
deriving DecidableEq

/-- Modelled from the spec (section 4.1; the `bitfield` module is absent from
src): a neighbourhood bit-set is represented by the ascending list of its set
offsets. Enumerating the set offsets is list traversal, and the masking
`neighbourhood & B::zero_at(offset)` of lib.rs is clearing one offset. -/
def zero_at (nb : List Nat) (o : Nat) : List Nat :=
  nb.filter (fun x => x != o)

/-- Modelled from the spec (section 4.2; the `bucket` module is absent from
src): one slot of a backing table holds an optional (key, cross-index) pair
plus the neighbourhood bit-set rooted at this slot. -/
structure Bucket (K : Type) where
  data : Option (K × Nat)
  neighbourhood : List Nat
deriving DecidableEq

/-- The empty bucket: unoccupied, with an empty neighbourhood bit-set. -/
def Bucket.empty {K : Type} : Bucket K :=
  ⟨none, []⟩

/-- Modelled from the spec (section 3; the `bucket` module is absent from
src): `Bucket::empty_vec(n)` allocates a table of `n` empty buckets. -/
def Bucket.empty_vec (K : Type) (n : Nat) : List (Bucket K) :=
  List.replicate n Bucket.empty

/-- The two way hashmap of lib.rs lines 31-41: the two backing tables.
The two hash-builder fields of the Rust struct are opaque capabilities fixed
per instance; operations below take them as explicit function arguments. -/
structure BiMap (L R : Type) where
  left_data : List (Bucket L)
  right_data : List (Bucket R)
deriving DecidableEq

def DEFAULT_HASH_MAP_SIZE : Nat := 32

def MAX_LOAD_FACTOR_NUMERATOR : Nat := 11

def MAX_LOAD_FACTOR_DENOMINATOR : Nat := 10

/-- The modulus of `usize` arithmetic on a 64-bit target: 2 ^ 64. -/
def USIZE_MOD : Nat := 18446744073709551616

/-- lib.rs lines 51-58: both tables are allocated with length
`capacity * MAX_LOAD_FACTOR_NUMERATOR / MAX_LOAD_FACTOR_DENOMINATOR`
(integer division). The `usize` product wraps modulo 2^64 under the
default release profile (a debug build would abort on overflow); the
division cannot overflow. -/
def BiMap.with_capacity {L R : Type} (capacity : Nat) : BiMap L R :=
  ⟨Bucket.empty_vec L
      (capacity * MAX_LOAD_FACTOR_NUMERATOR % USIZE_MOD / MAX_LOAD_FACTOR_DENOMINATOR),
   Bucket.empty_vec R
      (capacity * MAX_LOAD_FACTOR_NUMERATOR % USIZE_MOD / MAX_LOAD_FACTOR_DENOMINATOR)⟩

/-- lib.rs lines 45-47. -/
def BiMap.new {L R : Type} : BiMap L R :=
  BiMap.with_capacity DEFAULT_HASH_MAP_SIZE

/-- lib.rs lines 64-66: reported capacity is
`left_data.len() / MAX_LOAD_FACTOR_DENOMINATOR * MAX_LOAD_FACTOR_NUMERATOR`,
with the `usize` product again wrapping modulo 2^64. -/
def BiMap.capacity {L R : Type} (m : BiMap L R) : Nat :=
  m.left_data.length / MAX_LOAD_FACTOR_DENOMINATOR * MAX_LOAD_FACTOR_NUMERATOR % USIZE_MOD

/-- Reading `tbl[i]`; indices produced by the code are always reduced modulo
the table length, so in every reachable use `i` is in bounds. -/
def bucketGet {K : Type} (tbl : List (Bucket K)) (i : Nat) : Bucket K :=
  tbl.getD i Bucket.empty

/-- Writing `tbl[i].neighbourhood = nb` (lib.rs lines 114 and 126). -/
def setNb {K : Type} (tbl : List (Bucket K)) (i : Nat) (nb : List Nat) : List (Bucket K) :=
  tbl.set i { bucketGet tbl i with neighbourhood := nb }

/-- The state effect of `tbl[i].data.take()` (lib.rs lines 115-116). -/
def takeData {K : Type} (tbl : List (Bucket K)) (i : Nat) : List (Bucket K) :=
  tbl.set i { bucketGet tbl i with data := none }

/-- lib.rs lines 113-128, the body run once the key has been found at
`offset` from `index`. Note that the value pair is taken from
`value_data[(index + offset) % len]` (lib.rs line 116), and that the
`unwrap` there panics when that slot is unoccupied; `value_index`, the
cross-index stored with the key, is used only to compute `value_offset`
(lib.rs line 124). -/
def removeFound {K V : Type} (key_data : List (Bucket K)) (value_data : List (Bucket V))
    (value_hasher : V → Nat) (len index offset : Nat) (neighbourhood : List Nat)
    (value_index : Nat) :
    Except RustPanic (Option V × List (Bucket K) × List (Bucket V)) :=
  let key_data := setNb key_data index (zero_at neighbourhood offset)
  let key_data := takeData key_data ((index + offset) % len)
  match (bucketGet value_data ((index + offset) % len)).data with
  | none => Except.error RustPanic.unwrapNone
  | some vp =>
    let value := vp.1
    let value_data := takeData value_data ((index + offset) % len)
    let ideal_value_index := value_hasher value % len
    let value_offset := (value_index + len - ideal_value_index) % len
    let value_data := setNb value_data ideal_value_index
      (zero_at (bucketGet value_data ideal_value_index).neighbourhood value_offset)
    Except.ok (some value, key_data, value_data)

/-- lib.rs lines 103-129: scan the set offsets of the neighbourhood bit-set
at `index`; skip offsets whose bucket is unoccupied or holds a different key
(lib.rs lines 105-111); at the first offset whose bucket holds `key`, run the
found branch. `neighbourhood` is the bit-set read before the loop
(lib.rs line 102). -/
def removeLoop {K V : Type} [DecidableEq K] (key : K) (key_data : List (Bucket K))
    (value_data : List (Bucket V)) (value_hasher : V → Nat) (len index : Nat)
    (neighbourhood : List Nat) :
    List Nat → Except RustPanic (Option V × List (Bucket K) × List (Bucket V))
  | [] => Except.ok (none, key_data, value_data)
  | offset :: rest =>
    match (bucketGet key_data ((index + offset) % len)).data with
    | none => removeLoop key key_data value_data value_hasher len index neighbourhood rest
    | some kv =>
      if kv.1 = key then
        removeFound key_data value_data value_hasher len index offset neighbourhood kv.2
      else
        removeLoop key key_data value_data value_hasher len index neighbourhood rest

/-- lib.rs lines 86-132, the shared removal routine. In Rust the expression
`hasher.finish() as usize % len` aborts when `len = 0` (reduction modulo
zero), which happens exactly when the backing tables have length zero. -/
def BiMap.remove {K V : Type} [DecidableEq K] (key : K) (key_data : List (Bucket K))
    (value_data : List (Bucket V)) (key_hasher : K → Nat) (value_hasher : V → Nat) :
    Except RustPanic (Option V × List (Bucket K) × List (Bucket V)) :=
  let len := key_data.length
  if len = 0 then Except.error RustPanic.divByZero
  else
    let index := key_hasher key % len
    let neighbourhood := (bucketGet key_data index).neighbourhood
    removeLoop key key_data value_data value_hasher len index neighbourhood neighbourhood

/-- lib.rs lines 136-139: removal from the left, with `left_data` as the key
table and `right_data` as the value table. -/
def BiMap.remove_left {L R : Type} [DecidableEq L] (left_hasher : L → Nat)
    (right_hasher : R → Nat) (m : BiMap L R) (left : L) :
    Except RustPanic (Option R × BiMap L R) :=
  match BiMap.remove left m.left_data m.right_data left_hasher right_hasher with
  | Except.error e => Except.error e
  | Except.ok (v, kd, vd) => Except.ok (v, ⟨kd, vd⟩)

/-- lib.rs lines 143-146: removal from the right, with `right_data` as the
key table and `left_data` as the value table. -/
def BiMap.remove_right {L R : Type} [DecidableEq R] (left_hasher : L → Nat)
    (right_hasher : R → Nat) (m : BiMap L R) (right : R) :
    Except RustPanic (Option L × BiMap L R) :=
  match BiMap.remove right m.right_data m.left_data right_hasher left_hasher with
  | Except.error e => Except.error e
  | Except.ok (v, kd, vd) => Except.ok (v, ⟨vd, kd⟩)

/-- lib.rs lines 79-81: the body of `insert` is the `unimplemented!()` macro,
which panics unconditionally on every call. -/
def BiMap.insert {L R : Type} (_left : L) (_right : R) (_m : BiMap L R) :
    Except RustPanic ((Option R × Option L) × BiMap L R) :=
  Except.error RustPanic.unimplemented

/-- Modelled from the spec (section 4.8; the `iterator` module is absent from
src): walk the left table slot by slot; for each occupied slot follow its
cross-index into the right table and yield the pair. -/
def BiMap.iterate {L R : Type} (m : BiMap L R) : List (L × R) :=
  m.left_data.foldr (fun b acc =>
    match b.data with
    | none => acc
    | some lp =>
      match (bucketGet m.right_data lp.2).data with
      | none => acc
      | some rp => (lp.1, rp.1) :: acc) []

/-- The hopscotch neighbourhood width; modelled from the spec (sections 2
and 3: the default bit-set is a fixed small power-of-two width, 32). -/
def NEIGHBOURHOOD_WIDTH : Nat := 32

/-- Executable check of the neighbourhood bound invariant of the spec
(section 3) for one table: every occupied slot `p` is at circular distance
`o = (p + len - h) % len` less than the neighbourhood width from the ideal
index `h` of its key, and bit `o` is set in the neighbourhood bit-set of the
bucket at `h`. -/
def checkInvariant (kh : Nat → Nat) (tbl : List (Bucket Nat)) : Bool :=
  (List.range tbl.length).all fun p =>
    match (bucketGet tbl p).data with
    | none => true
    | some kv =>
      let h := kh kv.1 % tbl.length
      let o := (p + tbl.length - h) % tbl.length
      decide (o < NEIGHBOURHOOD_WIDTH) && (bucketGet tbl h).neighbourhood.contains o

/-- The identity hash, a legitimate instance of the opaque hash capability. -/
def idHash : Nat → Nat := fun n => n

/-- Left table of a concrete two-pair map state over tables of length 4 and
identity hashes: key 0 at slot 0 (home 0, offset 0) paired via cross-index 1,
and key 1 at slot 1 (home 1, offset 0) paired via cross-index 0. -/
def badLeft : List (Bucket Nat) :=
  [⟨some (0, 1), [0]⟩, ⟨some (1, 0), [0]⟩, ⟨none, []⟩, ⟨none, []⟩]

/-- Right table of the same state: value 0 at slot 0 (home 0, offset 0)
paired back to left slot 1, and value 4 at slot 1 (home 4 % 4 = 0, offset 1)
paired back to left slot 0. Bits 0 and 1 are set at its home bucket 0. -/
def badRight : List (Bucket Nat) :=
  [⟨some (0, 1), [0, 1]⟩, ⟨some (4, 0), []⟩, ⟨none, []⟩, ⟨none, []⟩]

/-- The two-pair map state: left keys 0 and 1 are paired with right keys 4
and 0 respectively. This is exactly the state the insert algorithm of spec
section 4.5 builds from `insert(1, 0)` then `insert(0, 4)` on length-4
tables with identity hashes, and it satisfies both the bijection and the
neighbourhood bound invariants of spec section 3. -/
def badMap : BiMap Nat Nat := ⟨badLeft, badRight⟩

/-- The state the code actually produces from `remove_left(0)` on `badMap`:
left slot 0 is emptied and its home bit cleared, but in the right table the
code empties slot 0 (the slot of the key, not the stored cross-index 1) and
clears bit 1 of home 0 even though right slot 1 is still occupied. -/
def removedMap : BiMap Nat Nat :=
  ⟨[⟨none, []⟩, ⟨some (1, 0), [0]⟩, ⟨none, []⟩, ⟨none, []⟩],
   [⟨none, [0]⟩, ⟨some (4, 0), []⟩, ⟨none, []⟩, ⟨none, []⟩]⟩

/-! ## Helper lemmas -/

theorem getD_replicate {α : Type} (d : α) : ∀ (n i : Nat), (List.replicate n d).getD i d = d
  | 0, _ => rfl
  | _ + 1, 0 => rfl
  | n + 1, i + 1 => getD_replicate d n i

theorem bucketGet_empty_vec {K : Type} (n i : Nat) :
    bucketGet (Bucket.empty_vec K n) i = Bucket.empty :=
  getD_replicate Bucket.empty n i

theorem bucketGet_mem {K : Type} :
    ∀ (tbl : List (Bucket K)) (i : Nat), i < tbl.length → bucketGet tbl i ∈ tbl
  | b :: _, 0, _ => List.mem_cons_self b _
  | _ :: t, i + 1, h =>
      List.mem_cons_of_mem _ (bucketGet_mem t i (Nat.lt_of_succ_lt_succ h))

/-- If no scanned offset holds the query key, the scan loop returns `None`
and leaves both tables untouched (the miss iterations of lib.rs
lines 105-111 perform no writes). -/
theorem removeLoop_miss {K V : Type} [DecidableEq K] (key : K) (kd : List (Bucket K))
    (vd : List (Bucket V)) (vh : V → Nat) (len index : Nat) (nb : List Nat) :
    ∀ offsets : List Nat,
      (∀ o ∈ offsets, ∀ p ∈ (bucketGet kd ((index + o) % len)).data, p.1 ≠ key) →
      removeLoop key kd vd vh len index nb offsets = Except.ok (none, kd, vd) := by
  intro offsets
  induction offsets with
  | nil => intro _; rfl
  | cons o rest ih =>
    intro h
    have hrest : ∀ x ∈ rest, ∀ p ∈ (bucketGet kd ((index + x) % len)).data, p.1 ≠ key :=
      fun x hx => h x (List.mem_cons_of_mem _ hx)
    have hhead : ∀ p ∈ (bucketGet kd ((index + o) % len)).data, p.1 ≠ key :=
      h o (List.mem_cons_self _ _)
    cases hb : (bucketGet kd ((index + o) % len)).data with
    | none =>
      simp only [removeLoop, hb]
      exact ih hrest
    | some kv =>
      have hne : kv.1 ≠ key := hhead kv (by simp [hb])
      simp only [removeLoop, hb, if_neg hne]
      exact ih hrest

/-- A normal return of the found branch leaves both table lengths unchanged
(every write is an in-place update of one slot). -/
theorem removeFound_lengths {K V : Type} (kd : List (Bucket K)) (vd : List (Bucket V))
    (vh : V → Nat) (len index offset : Nat) (nb : List Nat) (vi : Nat)
    (v : Option V) (kd' : List (Bucket K)) (vd' : List (Bucket V))
    (h : removeFound kd vd vh len index offset nb vi = Except.ok (v, kd', vd')) :
    kd'.length = kd.length ∧ vd'.length = vd.length := by
  simp only [removeFound] at h
  cases hb : (bucketGet vd ((index + offset) % len)).data with
  | none => rw [hb] at h; exact absurd h (by simp)
  | some vp =>
    rw [hb] at h
    simp only [Except.ok.injEq, Prod.mk.injEq] at h
    obtain ⟨-, hk, hv⟩ := h
    rw [← hk, ← hv]
    simp [setNb, takeData, List.length_set]

/-- A normal return of the scan loop leaves both table lengths unchanged. -/
theorem removeLoop_lengths {K V : Type} [DecidableEq K] (key : K) (kd : List (Bucket K))
    (vd : List (Bucket V)) (vh : V → Nat) (len index : Nat) (nb : List Nat) :
    ∀ (offsets : List Nat) (v : Option V) (kd' : List (Bucket K)) (vd' : List (Bucket V)),
      removeLoop key kd vd vh len index nb offsets = Except.ok (v, kd', vd') →
      kd'.length = kd.length ∧ vd'.length = vd.length := by
  intro offsets
  induction offsets with
  | nil =>
    intro v kd' vd' h
    simp only [removeLoop, Except.ok.injEq, Prod.mk.injEq] at h
    obtain ⟨-, hk, hv⟩ := h
    rw [← hk, ← hv]
    exact ⟨rfl, rfl⟩
  | cons o rest ih =>
    intro v kd' vd' h
    cases hb : (bucketGet kd ((index + o) % len)).data with
    | none =>
      simp only [removeLoop, hb] at h
      exact ih v kd' vd' h
    | some kv =>
      by_cases hkv : kv.1 = key
      · simp only [removeLoop, hb, if_pos hkv] at h
        exact removeFound_lengths kd vd vh len index o nb kv.2 v kd' vd' h
      · simp only [removeLoop, hb, if_neg hkv] at h
        exact ih v kd' vd' h

/-- A normal return of the shared removal routine leaves both table lengths
unchanged. -/
theorem remove_lengths {K V : Type} [DecidableEq K] (key : K) (kd : List (Bucket K))
    (vd : List (Bucket V)) (kh : K → Nat) (vh : V → Nat)
    (v : Option V) (kd' : List (Bucket K)) (vd' : List (Bucket V))
    (h : BiMap.remove key kd vd kh vh = Except.ok (v, kd', vd')) :
    kd'.length = kd.length ∧ vd'.length = vd.length := by
  simp only [BiMap.remove] at h
  by_cases h0 : kd.length = 0
  · rw [if_pos h0] at h
    exact absurd h (by simp)
  · rw [if_neg h0] at h
    exact removeLoop_lengths key kd vd vh kd.length _ _ _ v kd' vd' h

/-- Removal on freshly allocated tables of positive length returns `None`
and changes nothing: every neighbourhood bit-set starts empty, so the scan
loop runs over no offsets. -/
theorem remove_fresh {K V : Type} [DecidableEq K] (q : K) (n : Nat) (hn : 0 < n)
    (kh : K → Nat) (vh : V → Nat) :
    BiMap.remove q (Bucket.empty_vec K n) (Bucket.empty_vec V n) kh vh
      = Except.ok (none, Bucket.empty_vec K n, Bucket.empty_vec V n) := by
  have hlen : (Bucket.empty_vec K n).length = n := List.length_replicate n Bucket.empty
  simp only [BiMap.remove, hlen, bucketGet_empty_vec]
  rw [if_neg (Nat.pos_iff_ne_zero.mp hn)]
  rfl

/-- Tables allocated by `with_capacity k` have positive length as soon as
`k ≥ 1` and the `usize` product `k * 11` does not overflow. -/
theorem with_capacity_len_pos (k : Nat) (hk : 1 ≤ k)
    (hov : k * MAX_LOAD_FACTOR_NUMERATOR < USIZE_MOD) :
    0 < k * MAX_LOAD_FACTOR_NUMERATOR % USIZE_MOD / MAX_LOAD_FACTOR_DENOMINATOR := by
  simp only [MAX_LOAD_FACTOR_NUMERATOR, MAX_LOAD_FACTOR_DENOMINATOR, USIZE_MOD] at hov ⊢
  rw [Nat.mod_eq_of_lt hov]
  omega

/-- Closed form of the reported capacity after construction. -/
theorem capacity_with_capacity (k : Nat) :
    (BiMap.with_capacity k : BiMap Nat Nat).capacity
      = k * MAX_LOAD_FACTOR_NUMERATOR % USIZE_MOD / MAX_LOAD_FACTOR_DENOMINATOR
          / MAX_LOAD_FACTOR_DENOMINATOR * MAX_LOAD_FACTOR_NUMERATOR % USIZE_MOD := by
  simp [BiMap.capacity, BiMap.with_capacity, Bucket.empty_vec]

/-- On a map built by `with_capacity k` with `k ≥ 1` and `k * 11` not
overflowing `usize`, `remove_left` of any query returns `None` and leaves
the map unchanged. -/
theorem remove_left_with_capacity_fresh (k q : Nat) (lh rh : Nat → Nat) (hk : 1 ≤ k)
    (hov : k * MAX_LOAD_FACTOR_NUMERATOR < USIZE_MOD) :
    BiMap.remove_left lh rh (BiMap.with_capacity k : BiMap Nat Nat) q
      = Except.ok (none, BiMap.with_capacity k) := by
  simp only [BiMap.remove_left, BiMap.with_capacity]
  rw [remove_fresh q _ (with_capacity_len_pos k hk hov) lh rh]

/-- On a map built by `with_capacity k` with `k ≥ 1` and `k * 11` not
overflowing `usize`, `remove_right` of any query returns `None` and leaves
the map unchanged. -/
theorem remove_right_with_capacity_fresh (k q : Nat) (lh rh : Nat → Nat) (hk : 1 ≤ k)
    (hov : k * MAX_LOAD_FACTOR_NUMERATOR < USIZE_MOD) :
    BiMap.remove_right lh rh (BiMap.with_capacity k : BiMap Nat Nat) q
      = Except.ok (none, BiMap.with_capacity k) := by
  simp only [BiMap.remove_right, BiMap.with_capacity]
  rw [remove_fresh q _ (with_capacity_len_pos k hk hov) rh lh]

/-! ## Claims -/

/-- C1 (code_bug evidence): on the two-pair state `badMap` (which satisfies
both invariants of spec section 3, with left key 0 paired to right key 4
through stored cross-index 1), the shared removal routine finds key 0 at
bucket (0+0) % 4 = 0 with stored cross-index 1, but then takes the pair out
of the value table at slot (0+0) % 4 = 0 — not at the stored cross-index 1 —
and returns the value key 0 found there. The claim requires the pair to be
taken at cross-index 1, which still holds value key 4 afterwards. -/
theorem c1_remove_takes_value_at_key_slot :
    BiMap.remove 0 badLeft badRight idHash idHash
      = Except.ok (some 0, removedMap.left_data, removedMap.right_data) ∧
    (bucketGet badRight 0).data = some (0, 1) ∧
    (bucketGet removedMap.right_data 1).data = some (4, 0) :=
  ⟨rfl, rfl, rfl⟩

/-- C2 (counterexample): the claim `with_capacity(k).capacity() ≥ k` fails at
`k = 1`: the tables get length 1 * 11 / 10 = 1 and the reported capacity is
1 / 10 * 11 = 0. -/
theorem c2_capacity_counterexample :
    ¬ (1 ≤ (BiMap.with_capacity 1 : BiMap Nat Nat).capacity) := by
  decide

/-- C2 (amended): `with_capacity(k).capacity() ≥ k` holds for `k = 0` and for
every `k ≥ 46` whose `usize` product `k * 11` does not overflow, but not for
all `k`: it fails for small `k` such as `k = 1` (see the counterexample), and
it fails again at overflowing `k` such as `k = 1676976733973595602`, where the
release-profile product `k * 11` wraps modulo 2^64 to 6, giving length-0
tables and a reported capacity of 0. -/
theorem c2_capacity_lower_bound_amended :
    0 ≤ (BiMap.with_capacity 0 : BiMap Nat Nat).capacity ∧
    (∀ k : Nat, 46 ≤ k → k * MAX_LOAD_FACTOR_NUMERATOR < USIZE_MOD →
      k ≤ (BiMap.with_capacity k : BiMap Nat Nat).capacity) ∧
    ¬ (1676976733973595602
        ≤ (BiMap.with_capacity 1676976733973595602 : BiMap Nat Nat).capacity) := by
  refine ⟨Nat.zero_le _, fun k hk hov => ?_, by decide⟩
  rw [capacity_with_capacity]
  simp only [MAX_LOAD_FACTOR_NUMERATOR, MAX_LOAD_FACTOR_DENOMINATOR, USIZE_MOD] at hov ⊢
  rw [Nat.mod_eq_of_lt hov]
  have h2 : k * 11 / 10 / 10 * 11 < 18446744073709551616 := by omega
  rw [Nat.mod_eq_of_lt h2]
  omega

/-- C2 (witness): the amended lower bound applied at `k = 46`, whose product
46 * 11 = 506 does not overflow. -/
theorem c2_capacity_witness :
    46 ≤ (BiMap.with_capacity 46 : BiMap Nat Nat).capacity :=
  c2_capacity_lower_bound_amended.2.1 46 (by decide) (by decide)

/-- C3 (code_bug evidence): `insert` is not total: its body is the
`unimplemented!()` macro (lib.rs line 80), so every call panics instead of
returning normally; the claim says every declared public operation returns
normally with no panic. (`remove_left` and `remove_right` additionally panic
on zero-length tables, see the C7 theorem.) -/
theorem c3_insert_always_panics :
    ∀ (m : BiMap Nat Nat) (l r : Nat),
      BiMap.insert l r m = Except.error RustPanic.unimplemented :=
  fun _ _ _ => rfl

/-- C4 (code_bug evidence): the round-trip cannot be exercised because
`insert` panics on every call; moreover on `badMap` — exactly the state the
specified insert algorithm would build from `insert(1, 0); insert(0, 4)` —
`remove_left(0)` returns `Some 0` although the right key paired with left
key 0 (through stored cross-index 1) is 4, so the round-trip equation
`remove_left(l) = Some r` is also violated by the removal routine itself. -/
theorem c4_round_trip_fails :
    BiMap.insert 0 4 (BiMap.new : BiMap Nat Nat) = Except.error RustPanic.unimplemented ∧
    BiMap.remove_left idHash idHash badMap 0 = Except.ok (some 0, removedMap) ∧
    (bucketGet badMap.right_data 1).data = some (4, 0) ∧
    (some 0 : Option Nat) ≠ some 4 :=
  ⟨rfl, rfl, rfl, by decide⟩

/-- C5 (code_bug evidence): the overwrite-orphaning scenario cannot happen:
already the first of the two inserts panics via `unimplemented!()`, so the
second insert never returns `(Some(r1), None)` as the claim states. -/
theorem c5_overwrite_orphaning_blocked :
    ∀ m : BiMap Nat Nat,
      BiMap.insert 1 10 m = Except.error RustPanic.unimplemented ∧
      BiMap.insert 1 20 m = Except.error RustPanic.unimplemented :=
  fun _ => ⟨rfl, rfl⟩

/-- C6 (amended): removal of an absent key returns `None` whenever the key
table has nonzero length; in particular on maps built by `with_capacity k`
with `k ≥ 1` whose `usize` product `k * 11` does not overflow, and on maps
built by `new()`, both removals return `None` for any query. (As stated the
claim covered `with_capacity k` for any `k`: it fails at `k = 0` — see the
counterexample — and again at overflowing `k` such as
`k = 1676976733973595602`, where the release-profile product wraps modulo
2^64 to 6, the tables get length 6 / 10 = 0, and removal panics by reduction
modulo zero; the last conjunct proves that overflow failure.) -/
theorem c6_removal_of_absent_key :
    (∀ (kd vd : List (Bucket Nat)) (kh vh : Nat → Nat) (q : Nat),
      0 < kd.length →
      (∀ b ∈ kd, ∀ p ∈ b.data, p.1 ≠ q) →
      BiMap.remove q kd vd kh vh = Except.ok (none, kd, vd)) ∧
    (∀ (k q : Nat) (lh rh : Nat → Nat),
      1 ≤ k → k * MAX_LOAD_FACTOR_NUMERATOR < USIZE_MOD →
      BiMap.remove_left lh rh (BiMap.with_capacity k : BiMap Nat Nat) q
        = Except.ok (none, BiMap.with_capacity k) ∧
      BiMap.remove_right lh rh (BiMap.with_capacity k : BiMap Nat Nat) q
        = Except.ok (none, BiMap.with_capacity k)) ∧
    (∀ (q : Nat) (lh rh : Nat → Nat),
      BiMap.remove_left lh rh (BiMap.new : BiMap Nat Nat) q
        = Except.ok (none, BiMap.new) ∧
      BiMap.remove_right lh rh (BiMap.new : BiMap Nat Nat) q
        = Except.ok (none, BiMap.new)) ∧
    BiMap.remove_left idHash idHash
        (BiMap.with_capacity 1676976733973595602 : BiMap Nat Nat) 0
      = Except.error RustPanic.divByZero := by
  refine ⟨?_, ?_, ?_, rfl⟩
  · intro kd vd kh vh q hlen habs
    simp only [BiMap.remove]
    rw [if_neg (Nat.pos_iff_ne_zero.mp hlen)]
    apply removeLoop_miss
    intro o _ p hp
    have hj : (kh q % kd.length + o) % kd.length < kd.length := Nat.mod_lt _ hlen
    exact habs _ (bucketGet_mem kd _ hj) p hp
  · intro k q lh rh hk hov
    exact ⟨remove_left_with_capacity_fresh k q lh rh hk hov,
           remove_right_with_capacity_fresh k q lh rh hk hov⟩
  · intro q lh rh
    exact ⟨remove_left_with_capacity_fresh DEFAULT_HASH_MAP_SIZE q lh rh (by decide) (by decide),
           remove_right_with_capacity_fresh DEFAULT_HASH_MAP_SIZE q lh rh (by decide) (by decide)⟩

/-- C6 (counterexample): the claim as stated also covers the fresh map
`with_capacity 0`, but there both backing tables have length zero and the
removal panics (reduction modulo zero) instead of returning `None`. -/
theorem c6_removal_counterexample :
    BiMap.remove_left idHash idHash (BiMap.with_capacity 0 : BiMap Nat Nat) 0
      = Except.error RustPanic.divByZero :=
  rfl

/-- C6 (witness): the absent-key part applied to the two-pair state `badMap`
and the absent query 5. -/
theorem c6_removal_witness :
    BiMap.remove 5 badLeft badRight idHash idHash = Except.ok (none, badLeft, badRight) :=
  c6_removal_of_absent_key.1 badLeft badRight idHash idHash 5 (by decide) (by decide)

/-- C7 (confirmed): on a map produced by `with_capacity 0` the backing tables
have length 0 * 11 % 2^64 / 10 = 0 (no overflow is involved at `k = 0`), and
both `remove_left` and `remove_right` reach
the reduction-modulo-zero panic of `hash % len` at the public interface,
for every query and every pair of hash capabilities, instead of returning
`None`. -/
theorem c7_zero_capacity_removal_panics :
    ∀ (lh rh : Nat → Nat) (q : Nat),
      BiMap.remove_left lh rh (BiMap.with_capacity 0 : BiMap Nat Nat) q
        = Except.error RustPanic.divByZero ∧
      BiMap.remove_right lh rh (BiMap.with_capacity 0 : BiMap Nat Nat) q
        = Except.error RustPanic.divByZero :=
  fun _ _ _ => ⟨rfl, rfl⟩

/-- C8 (confirmed): both backing tables are allocated with equal length by
`with_capacity`, and every public operation that returns normally preserves
the equality of the two lengths: `remove_left` and `remove_right` only ever
rewrite slots in place, and `insert` never returns normally at all.
(Iteration takes the map by reference and performs no mutation, so there is
nothing to preserve for it.) -/
theorem c8_table_lengths_stay_equal :
    (∀ k : Nat, (BiMap.with_capacity k : BiMap Nat Nat).left_data.length
        = (BiMap.with_capacity k : BiMap Nat Nat).right_data.length) ∧
    (∀ (lh rh : Nat → Nat) (m : BiMap Nat Nat) (q : Nat) (v : Option Nat) (m' : BiMap Nat Nat),
      m.left_data.length = m.right_data.length →
      BiMap.remove_left lh rh m q = Except.ok (v, m') →
      m'.left_data.length = m'.right_data.length) ∧
    (∀ (lh rh : Nat → Nat) (m : BiMap Nat Nat) (q : Nat) (v : Option Nat) (m' : BiMap Nat Nat),
      m.left_data.length = m.right_data.length →
      BiMap.remove_right lh rh m q = Except.ok (v, m') →
      m'.left_data.length = m'.right_data.length) ∧
    (∀ (l r : Nat) (m : BiMap Nat Nat) (x : Option Nat × Option Nat) (m' : BiMap Nat Nat),
      m.left_data.length = m.right_data.length →
      BiMap.insert l r m = Except.ok (x, m') →
      m'.left_data.length = m'.right_data.length) := by
  refine ⟨?_, ?_, ?_, ?_⟩
  · intro k
    simp [BiMap.with_capacity, Bucket.empty_vec]
  · intro lh rh m q v m' heq h
    cases hr : BiMap.remove q m.left_data m.right_data lh rh with
    | error e => simp [BiMap.remove_left, hr] at h
    | ok t =>
      obtain ⟨v0, kd, vd⟩ := t
      simp only [BiMap.remove_left, hr] at h
      obtain ⟨hlen1, hlen2⟩ := remove_lengths q m.left_data m.right_data lh rh v0 kd vd hr
      cases h
      simpa [hlen1, hlen2] using heq
  · intro lh rh m q v m' heq h
    cases hr : BiMap.remove q m.right_data m.left_data rh lh with
    | error e => simp [BiMap.remove_right, hr] at h
    | ok t =>
      obtain ⟨v0, kd, vd⟩ := t
      simp only [BiMap.remove_right, hr] at h
      obtain ⟨hlen1, hlen2⟩ := remove_lengths q m.right_data m.left_data rh lh v0 kd vd hr
      cases h
      simpa [hlen1, hlen2] using heq
  · intro l r m x m' heq h
    simp [BiMap.insert] at h

/-- C8 (witness): the `remove_left` part applied to the concrete successful
removal of the absent query 0 from `with_capacity 1`. -/
theorem c8_table_lengths_witness :
    (BiMap.with_capacity 1 : BiMap Nat Nat).left_data.length
      = (BiMap.with_capacity 1 : BiMap Nat Nat).right_data.length :=
  c8_table_lengths_stay_equal.2.1 idHash idHash (BiMap.with_capacity 1) 0 none
    (BiMap.with_capacity 1) (by rfl) (by rfl)

/-- C9 (code_bug evidence): the two-pair state `badMap` satisfies the
neighbourhood bound invariant in both tables (and the bijection invariant),
yet after `remove_left(0)` the right table violates it: slot 1 is still
occupied by value key 4 (home 4 % 4 = 0, offset 1) but the code cleared
bit 1 of the bit-set at home 0 — the offset it computed from the stored
cross-index 1 and the hash of the value key 0 it wrongly took from slot 0. -/
theorem c9_remove_breaks_invariant :
    checkInvariant idHash badMap.left_data = true ∧
    checkInvariant idHash badMap.right_data = true ∧
    BiMap.remove_left idHash idHash badMap 0 = Except.ok (some 0, removedMap) ∧
    checkInvariant idHash removedMap.right_data = false :=
  ⟨rfl, rfl, rfl, rfl⟩

/-- C10 (confirmed): when the query matches no key at any set offset of the
home neighbourhood and the table length is nonzero, the shared removal
routine returns `None` and both tables are returned completely unchanged. -/
theorem c10_miss_leaves_tables_unchanged :
    ∀ (kd vd : List (Bucket Nat)) (kh vh : Nat → Nat) (q : Nat),
      0 < kd.length →
      (∀ o ∈ (bucketGet kd (kh q % kd.length)).neighbourhood,
        ∀ p ∈ (bucketGet kd ((kh q % kd.length + o) % kd.length)).data, p.1 ≠ q) →
      BiMap.remove q kd vd kh vh = Except.ok (none, kd, vd) := by
  intro kd vd kh vh q hlen h
  simp only [BiMap.remove]
  rw [if_neg (Nat.pos_iff_ne_zero.mp hlen)]
  exact removeLoop_miss q kd vd vh kd.length (kh q % kd.length) _ _ h

/-- C10 (witness): the query 7 hashes to home 3 of `badLeft`, whose
neighbourhood bit-set is empty, so the removal is a miss and returns the
tables unchanged. -/
theorem c10_miss_witness :
    BiMap.remove 7 badLeft badRight idHash idHash = Except.ok (none, badLeft, badRight) :=
  c10_miss_leaves_tables_unchanged badLeft badRight idHash idHash 7 (by decide) (by decide)

end Isomorphism
